import Mathlib

/-!
Verification of `crates/bevy_pbr/src/light.rs`: light descriptors
(`PointLight`, `DirectionalLight`, `AmbientLight`), photometric
conversion, and uniform packing (`PointLightUniform`,
`DirectionalLightUniform`).

Scalars of the Rust code (`f32`) are modelled as real numbers; the
`f32` transcendental functions `log2` and `powf` are modelled by
`Real.logb 2` and `Real.rpow`.  Rust panics are modelled by `Option`
(`none` is the panic).  The collaborator types `Color`, `Vec3` and
`GlobalTransform` come from crates whose sources are not part of this
fragment; they are modelled from the specification.
-/

/-- Modelled from the spec: 4-component float group (`[f32; 4]` in the
source), the building block of the GPU uniform records. -/
structure Float4 where
  a0 : ℝ
  a1 : ℝ
  a2 : ℝ
  a3 : ℝ

/-- Componentwise scalar multiple of a `Float4`. -/
def Float4.scale (k : ℝ) (v : Float4) : Float4 :=
  ⟨k * v.a0, k * v.a1, k * v.a2, k * v.a3⟩

/-- Modelled from the spec: the collaborator color type (from
`bevy_render::color`, not part of this fragment): an RGBA value
offering component-wise scalar multiplication and conversion to a
4-element float array. -/
structure Color where
  r : ℝ
  g : ℝ
  b : ℝ
  a : ℝ

/-- Modelled from the spec: `Color::rgb` builds an opaque color
(alpha 1.0). -/
def Color.rgb (r g b : ℝ) : Color :=
  ⟨r, g, b, 1⟩

/-- Modelled from the spec: scalar multiplication of a color is "a
uniform scalar multiply across all four channels" (spec §4.2); the
source comment agrees: "we don't use the alpha at all, so no reason to
multiply only [0..3]". -/
def Color.mulScalar (c : Color) (s : ℝ) : Color :=
  ⟨c.r * s, c.g * s, c.b * s, c.a * s⟩

/-- Modelled from the spec: conversion of a color into a 4-element
float array (`Into<[f32; 4]>` of the collaborator crate). -/
def Color.toFloat4 (c : Color) : Float4 :=
  ⟨c.r, c.g, c.b, c.a⟩

/-- Modelled from the spec: a 3D vector (`bevy_math::Vec3`, not part
of this fragment). -/
structure Vec3 where
  x : ℝ
  y : ℝ
  z : ℝ

/-- Modelled from the spec: `Vec3::is_normalized` holds when the
vector is unit-length (spec: "`direction` must always be a normalized
3D vector", "fails ... if `direction` is not unit-length"). -/
def Vec3.isNormalized (v : Vec3) : Prop :=
  v.x * v.x + v.y * v.y + v.z * v.z = 1

/-- Modelled from the spec: the world-space transform collaborator
(`bevy_transform::components::GlobalTransform`), "yielding a 3D
translation for a point light's owning entity". -/
structure GlobalTransform where
  translation : Vec3

/-- A point light (source `struct PointLight`). -/
structure PointLight where
  color : Color
  intensity : ℝ
  range : ℝ
  radius : ℝ

/-- Source `impl Default for PointLight`. -/
def PointLight.default : PointLight :=
  { color := Color.rgb 1 1 1
    intensity := 200
    range := 20
    radius := 0 }

/-- Source `struct PointLightUniform`: `pos`, `color`, `light_params`,
each a `[f32; 4]`. -/
structure PointLightUniform where
  pos : Float4
  color : Float4
  light_params : Float4

/-- Source `PointLightUniform::new`. -/
noncomputable def PointLightUniform.new (light : PointLight) (global_transform : GlobalTransform) :
    PointLightUniform :=
  let x := global_transform.translation.x
  let y := global_transform.translation.y
  let z := global_transform.translation.z
  let color : Float4 := (light.color.mulScalar light.intensity).toFloat4
  { pos := ⟨x, y, z, 1⟩
    color := color
    light_params := ⟨1 / (light.range * light.range), light.radius, 0, 0⟩ }

/-- A directional light (source `struct DirectionalLight`; the
`direction` field is private in the source). -/
structure DirectionalLight where
  color : Color
  intensity : ℝ
  direction : Vec3

open Classical in
/-- Source `DirectionalLight::new`; the panic on a non-normalized
direction is modelled as `none`. -/
noncomputable def DirectionalLight.new (color : Color) (intensity : ℝ) (direction : Vec3) :
    Option DirectionalLight :=
  if direction.isNormalized then
    some { color := color, intensity := intensity, direction := direction }
  else
    none

open Classical in
/-- Source `DirectionalLight::set_direction`; the panic on a
non-normalized direction is modelled as `none`. -/
noncomputable def DirectionalLight.set_direction (light : DirectionalLight) (direction : Vec3) :
    Option DirectionalLight :=
  if direction.isNormalized then
    some { light with direction := direction }
  else
    none

/-- Source `DirectionalLight::get_direction`. -/
def DirectionalLight.get_direction (light : DirectionalLight) : Vec3 :=
  light.direction

/-- Source `impl Default for DirectionalLight`. -/
def DirectionalLight.default : DirectionalLight :=
  { color := Color.rgb 1 1 1
    intensity := 100000
    direction := ⟨0, -1, 0⟩ }

/-- Source `struct DirectionalLightUniform`: `dir` then `color`, each
a `[f32; 4]`. -/
structure DirectionalLightUniform where
  dir : Float4
  color : Float4

/-- Source constant `APERTURE` of `DirectionalLightUniform::new`. -/
def APERTURE : ℝ := 4

/-- Source constant `SHUTTER_SPEED` of `DirectionalLightUniform::new`. -/
noncomputable def SHUTTER_SPEED : ℝ := 1 / 250

/-- Source constant `SENSITIVITY` of `DirectionalLightUniform::new`. -/
def SENSITIVITY : ℝ := 100

/-- Source local `ev100` of `DirectionalLightUniform::new`
(`f32::log2` modelled as `Real.logb 2`). -/
noncomputable def ev100 : ℝ :=
  Real.logb 2 (APERTURE * APERTURE / SHUTTER_SPEED) - Real.logb 2 (SENSITIVITY / 100)

/-- Source local `exposure` of `DirectionalLightUniform::new`
(`f32::powf 2.0` modelled as `Real.rpow 2`). -/
noncomputable def exposure : ℝ :=
  1 / ((2 : ℝ) ^ ev100 * 1.2)

/-- Source `DirectionalLightUniform::new`. -/
noncomputable def DirectionalLightUniform.new (light : DirectionalLight) :
    DirectionalLightUniform :=
  let dir : Float4 :=
    ⟨-light.direction.x, -light.direction.y, -light.direction.z, 0⟩
  let intensity := light.intensity * exposure
  let color : Float4 := (light.color.mulScalar intensity).toFloat4
  { dir := dir, color := color }

/-- Ambient light color (source `struct AmbientLight`). -/
structure AmbientLight where
  color : Color
  brightness : ℝ

/-- Source `impl Default for AmbientLight`. -/
def AmbientLight.default : AmbientLight :=
  { color := Color.rgb 1 1 1
    brightness := 0.05 }

lemma shutter_pos : APERTURE * APERTURE / SHUTTER_SPEED = 4000 := by
  norm_num [APERTURE, SHUTTER_SPEED]

lemma ev100_eq : ev100 = Real.logb 2 4000 := by
  rw [ev100, shutter_pos]
  norm_num [SENSITIVITY, Real.logb_one]

lemma exposure_eq : exposure = 1 / 4800 := by
  have h3 : (2 : ℝ) ^ ev100 = 4000 := by
    rw [ev100_eq]
    exact Real.rpow_logb (by norm_num) (by norm_num) (by norm_num)
  rw [exposure, h3]
  norm_num

/-- C1: `PointLightUniform::new` packs `pos = [x, y, z, 1]`, the color
premultiplied by intensity across all four channels, and
`light_params = [1/range^2, radius, 0, 0]`; at white color, intensity 1,
range 1, radius 0 and position (1,2,3) it yields
`pos = [1,2,3,1]`, `color = [1,1,1,1]`, `light_params = [1,0,0,0]`. -/
theorem point_uniform_new_spec :
    (∀ (l : PointLight) (t : GlobalTransform),
      PointLightUniform.new l t =
        { pos := ⟨t.translation.x, t.translation.y, t.translation.z, 1⟩
          color := ⟨l.color.r * l.intensity, l.color.g * l.intensity,
                    l.color.b * l.intensity, l.color.a * l.intensity⟩
          light_params := ⟨1 / (l.range * l.range), l.radius, 0, 0⟩ }) ∧
    PointLightUniform.new ⟨Color.rgb 1 1 1, 1, 1, 0⟩ ⟨⟨1, 2, 3⟩⟩ =
      ⟨⟨1, 2, 3, 1⟩, ⟨1, 1, 1, 1⟩, ⟨1, 0, 0, 0⟩⟩ := by
  constructor
  · intro l t
    simp [PointLightUniform.new, Color.mulScalar, Color.toFloat4]
  · norm_num [PointLightUniform.new, Color.mulScalar, Color.toFloat4, Color.rgb]

/-- C2: `DirectionalLightUniform::new` stores the componentwise
negation of the stored direction with fourth component 0; direction
(0,-1,0) yields `dir = [0,1,0,0]`. -/
theorem directional_uniform_dir_spec :
    (∀ l : DirectionalLight,
      (DirectionalLightUniform.new l).dir =
        ⟨-l.direction.x, -l.direction.y, -l.direction.z, 0⟩) ∧
    (DirectionalLightUniform.new ⟨Color.rgb 1 1 1, 1, ⟨0, -1, 0⟩⟩).dir =
      ⟨0, 1, 0, 0⟩ := by
  constructor
  · intro l
    simp [DirectionalLightUniform.new]
  · norm_num [DirectionalLightUniform.new]

/-- C3: the color of `DirectionalLightUniform::new` follows the fixed
exposure model with aperture 4, shutter speed 1/250 and sensitivity
100: `ev100 = log2(aperture^2 / shutter_speed) - log2(sensitivity/100)`,
`exposure = 1 / (2^ev100 * 1.2)`, and the color is the light's color
scaled by `intensity * exposure`. -/
theorem directional_uniform_color_spec :
    ∀ l : DirectionalLight,
      (DirectionalLightUniform.new l).color =
        (l.color.mulScalar (l.intensity *
          (1 / ((2 : ℝ) ^ (Real.logb 2 (4 * 4 / (1 / 250)) -
            Real.logb 2 ((100 : ℝ) / 100)) * 1.2)))).toFloat4 := by
  intro l
  have h : ev100 = Real.logb 2 (4 * 4 / (1 / 250)) - Real.logb 2 ((100 : ℝ) / 100) := by
    norm_num [ev100, APERTURE, SHUTTER_SPEED, SENSITIVITY]
  simp [DirectionalLightUniform.new, exposure, h]

/-- C4: `DirectionalLight::new` panics (modelled: returns `none`) iff
the direction is not unit-length; on a normalized direction it stores
the direction unchanged and `get_direction` returns exactly it;
`set_direction` applies the same validation. -/
theorem directional_light_new_spec :
    ∀ (c : Color) (i : ℝ) (d : Vec3) (l0 : DirectionalLight),
      (DirectionalLight.new c i d = none ↔ ¬ d.isNormalized) ∧
      (d.isNormalized →
        ∃ l, DirectionalLight.new c i d = some l ∧ l.get_direction = d) ∧
      (l0.set_direction d = none ↔ ¬ d.isNormalized) := by
  intro c i d l0
  by_cases h : d.isNormalized <;>
    simp [DirectionalLight.new, DirectionalLight.set_direction,
      DirectionalLight.get_direction, h]

/-- C4 witness: direction (0,-1,0) is normalized, so construction
succeeds and returns it unchanged. -/
theorem directional_light_new_spec_witness :
    ∃ l, DirectionalLight.new (Color.rgb 1 1 1) 1 ⟨0, -1, 0⟩ = some l ∧
      l.get_direction = ⟨0, -1, 0⟩ :=
  (directional_light_new_spec (Color.rgb 1 1 1) 1 ⟨0, -1, 0⟩
    DirectionalLight.default).2.1 (by norm_num [Vec3.isNormalized])

/-- C5: every constructor and mutator of `DirectionalLight` (`new`,
`set_direction`, `default`) only ever produces a value whose stored
direction is normalized. -/
theorem directional_light_invariant_spec :
    (∀ (c : Color) (i : ℝ) (d : Vec3) (l : DirectionalLight),
      DirectionalLight.new c i d = some l → l.get_direction.isNormalized) ∧
    (∀ (l0 : DirectionalLight) (d : Vec3) (l : DirectionalLight),
      l0.set_direction d = some l → l.get_direction.isNormalized) ∧
    DirectionalLight.default.get_direction.isNormalized := by
  refine ⟨?_, ?_, ?_⟩
  · intro c i d l hl
    by_cases h : d.isNormalized
    · simp [DirectionalLight.new, h] at hl
      simp [← hl, DirectionalLight.get_direction, h]
    · simp [DirectionalLight.new, h] at hl
  · intro l0 d l hl
    by_cases h : d.isNormalized
    · simp [DirectionalLight.set_direction, h] at hl
      simp [← hl, DirectionalLight.get_direction, h]
    · simp [DirectionalLight.set_direction, h] at hl
  · norm_num [DirectionalLight.default, DirectionalLight.get_direction,
      Vec3.isNormalized]

/-- C5 witness: the invariant instantiated at the concrete successful
construction with direction (0,-1,0). -/
theorem directional_light_invariant_spec_witness :
    (DirectionalLight.mk (Color.rgb 1 1 1) 1 ⟨0, -1, 0⟩).get_direction.isNormalized :=
  directional_light_invariant_spec.1 (Color.rgb 1 1 1) 1 ⟨0, -1, 0⟩ _
    (by simp [DirectionalLight.new,
      show Vec3.isNormalized ⟨0, -1, 0⟩ by norm_num [Vec3.isNormalized]])

/-- C6: `PointLightUniform::new` applies no check to `range`: the
`light_params` formula holds unconditionally (the function is total),
at `range = 0` its first slot is the division `1 / (0 * 0)`, and under
the precondition `range > 0` the `1/range^2` term is a genuine
multiplicative inverse. -/
theorem point_uniform_range_unchecked_spec :
    ∀ (l : PointLight) (t : GlobalTransform),
      (PointLightUniform.new l t).light_params =
        ⟨1 / (l.range * l.range), l.radius, 0, 0⟩ ∧
      (l.range = 0 →
        (PointLightUniform.new l t).light_params.a0 = 1 / ((0 : ℝ) * 0)) ∧
      (0 < l.range →
        (PointLightUniform.new l t).light_params.a0 * (l.range * l.range) = 1) := by
  intro l t
  refine ⟨by simp [PointLightUniform.new], ?_, ?_⟩
  · intro h
    simp [PointLightUniform.new, h]
  · intro h
    have hne : l.range * l.range ≠ 0 := by positivity
    simp [PointLightUniform.new]
    field_simp

/-- C6 witness: at the default point light (range 20) the attenuation
slot really is the inverse of range squared. -/
theorem point_uniform_range_unchecked_spec_witness :
    (PointLightUniform.new PointLight.default ⟨⟨0, 0, 0⟩⟩).light_params.a0 *
      (PointLight.default.range * PointLight.default.range) = 1 :=
  (point_uniform_range_unchecked_spec PointLight.default ⟨⟨0, 0, 0⟩⟩).2.2
    (by norm_num [PointLight.default])

/-- C7: color premultiplication is linear in intensity: scaling a
point light's intensity by k scales every component of the packed
color by k; scaling a directional light's intensity by k scales every
component of the packed color by k, equivalently the packed color is
`k * exposure` times the raw color-times-intensity product. -/
theorem premultiply_linear_spec :
    ∀ (k : ℝ) (p : PointLight) (t : GlobalTransform) (d : DirectionalLight),
      (PointLightUniform.new { p with intensity := k * p.intensity } t).color =
        Float4.scale k (PointLightUniform.new p t).color ∧
      (DirectionalLightUniform.new { d with intensity := k * d.intensity }).color =
        Float4.scale k (DirectionalLightUniform.new d).color ∧
      (DirectionalLightUniform.new { d with intensity := k * d.intensity }).color =
        Float4.scale (k * exposure) ((d.color.mulScalar d.intensity).toFloat4) := by
  intro k p t d
  refine ⟨?_, ?_, ?_⟩ <;>
    simp [PointLightUniform.new, DirectionalLightUniform.new,
      Color.mulScalar, Color.toFloat4, Float4.scale] <;>
    refine ⟨by ring, by ring, by ring, by ring⟩

/-- C8: the `Default` implementations produce exactly the documented
constants: point light white/200/20/0, directional light
white/100000/(0,-1,0), ambient light white/0.05. -/
theorem defaults_spec :
    PointLight.default = ⟨Color.rgb 1 1 1, 200, 20, 0⟩ ∧
    DirectionalLight.default = ⟨Color.rgb 1 1 1, 100000, ⟨0, -1, 0⟩⟩ ∧
    AmbientLight.default = ⟨Color.rgb 1 1 1, 0.05⟩ :=
  ⟨rfl, rfl, rfl⟩

/-- C10: with the hard-coded constants the exposure model collapses:
`ev100 = log2 4000`, `exposure = 1/4800`, and the directional uniform
color is the light's color scaled by `intensity / 4800`. -/
theorem exposure_constant_spec :
    ev100 = Real.logb 2 4000 ∧
    exposure = 1 / 4800 ∧
    ∀ l : DirectionalLight,
      (DirectionalLightUniform.new l).color =
        (l.color.mulScalar (l.intensity / 4800)).toFloat4 := by
  refine ⟨ev100_eq, exposure_eq, fun l => ?_⟩
  have h : l.intensity / 4800 = l.intensity * (1 / 4800 : ℝ) := by ring
  rw [h]
  simp [DirectionalLightUniform.new, exposure_eq, Color.mulScalar, Color.toFloat4]
